import Mathlib

/-! # lohigh: the sound-file combiner of `src/main.cpp`

A shallow embedding of `combineSoundFiles` and `main`.

The program is straight-line code around five calls into libsndfile
(`sf_open`, `sf_read_short`, `sf_write_short`, `sf_close`, `sf_strerror`) and
two `std::vector<short>::resize` calls.  The library is not part of the
repository, so it enters the model as a parameter (`Env`): every call site is
executed at most once per run, hence a record of response functions, one per
call site, describes every possible behaviour of the library.  A run of the
program is the list of externally visible events it performs, in program
order, together with the way it ends.

Machine integers are `Int`/`Nat` with explicit wrap-around: the buffer size
`frames * channels` is an `int64_t` product (taken with two's-complement
wrap-around) converted to `size_t`.

Signed overflow of that product is undefined in C++; the model takes the
wrapped value, and no statement about buffer sizes below is made for a
product outside the `int64_t` range.

`std::vector<short>::resize(n)` throws `std::length_error` when `n` exceeds
`max_size()` and `std::bad_alloc` when the allocator refuses the storage
(`Env.memory`); nothing in the program catches either, so such a run ends
without returning.  The library is assumed to keep its contract that a bulk
read never delivers more items than it was asked for (`Env.read_le`).
-/

namespace Lohigh

/-! ## Data model -/

/-- Format descriptor of a stream, the `SF_INFO` struct that `sf_open` fills
in (`frames` is `sf_count_t`, a 64-bit signed integer, the rest are `int`). -/
structure SF_INFO where
  frames : Int
  samplerate : Int
  channels : Int
  format : Int
  sections : Int
  seekable : Int
deriving DecidableEq, Repr

/-- The three stream handles of `combineSoundFiles`, named after the local
variables that hold them. -/
inductive SNDFILE where
  | inputSndFile1
  | inputSndFile2
  | outputSndFile
deriving DecidableEq, Repr

/-- The world outside `main.cpp`: libsndfile's answers at each call site, the
indeterminate initial content of the local `outputInfo`, the largest element
count `std::vector<short>` admits (`max_size()`), and the allocator. -/
structure Env where
  /-- Answer of `sf_open(path, SFM_READ, &info)`: `none` is a null handle. -/
  sf_open_read : SNDFILE → String → Option SF_INFO
  /-- Answer of `sf_open(path, SFM_WRITE, &outputInfo)`: `false` is null. -/
  sf_open_write : String → SF_INFO → Bool
  /-- Samples that `sf_read_short(h, buf, items)` stores at the front of
  `buf`; their number is the value the call returns. -/
  sf_read_short : SNDFILE → Int → List Int
  /-- Value returned by `sf_write_short`, given the samples written to the
  stream so far and the samples passed now. -/
  sf_write_short : List Int → List Int → Int
  /-- Text of `sf_strerror(nullptr)` after the open of the given handle
  failed. -/
  sf_strerror : SNDFILE → String
  /-- Content of the local `outputInfo` before the three assignments. -/
  outputInfo0 : SF_INFO
  /-- Largest size `resize` accepts; above it `std::length_error` is thrown. -/
  max_size : Nat
  /-- Whether the allocator grants storage for `n` samples to the buffer of
  the given input; when it does not, `resize` throws `std::bad_alloc`. -/
  memory : SNDFILE → Nat → Bool
  /-- Library contract: a read never delivers more items than requested. -/
  read_le : ∀ h items, (sf_read_short h items).length ≤ items.toNat
  /-- A vector size always fits the signed 64-bit `sf_count_t`. -/
  max_size_lt : max_size < 2 ^ 63

/-- Externally visible actions, in the vocabulary of the source. -/
inductive Event where
  | sf_open_read (h : SNDFILE) (path : String) (result : Option SF_INFO)
  | sf_open_write (h : SNDFILE) (path : String) (info : SF_INFO) (ok : Bool)
  | resize (h : SNDFILE) (n : Nat)
  | sf_read_short (h : SNDFILE) (items : Int) (got : List Int)
  | sf_write_short (h : SNDFILE) (samples : List Int) (ret : Int)
  | sf_close (h : SNDFILE)
  | cerr (msg : String)
  | cout (msg : String)
deriving DecidableEq, Repr

/-- The exceptions `std::vector<short>::resize` throws. -/
inductive Exception where
  | length_error
  | bad_alloc
deriving DecidableEq, Repr

/-- How a call of `combineSoundFiles` ends: it returns a `bool`, or an
exception thrown by `resize` leaves it (nothing in the program catches it). -/
inductive Outcome where
  | returned (b : Bool)
  | length_error
  | bad_alloc
deriving DecidableEq, Repr

/-- The way a call ends when the exception leaves it. -/
def Exception.outcome : Exception → Outcome
  | .length_error => .length_error
  | .bad_alloc => .bad_alloc

/-- A run: what was done, in order, and how it ended. -/
structure Run where
  trace : List Event
  outcome : Outcome
deriving DecidableEq, Repr

/-! ## Machine arithmetic -/

/-- Wrap an integer into the signed 64-bit range (two's complement). -/
def int64_wrap (x : Int) : Int := (x + 2 ^ 63) % 2 ^ 64 - 2 ^ 63

/-- Conversion of a signed 64-bit value to `size_t`. -/
def to_size_t (x : Int) : Nat := (x % 2 ^ 64).toNat

/-- Conversion of a `size_t` to `sf_count_t`. -/
def to_sf_count_t (n : Nat) : Int := int64_wrap (n : Int)

/-- The argument of `resize`: `info.frames * info.channels` computed in
`sf_count_t` and converted to `size_t` (lines 47 and 48). -/
def bufferSize (info : SF_INFO) : Nat :=
  to_size_t (int64_wrap (info.frames * info.channels))

/-- The call `buf.resize(n)` on an empty `std::vector<short>`: `none` when it
completes, otherwise the exception it throws.  A size above `max_size()` is a
`std::length_error`; a size of zero needs no storage; any other size needs
the allocator, whose refusal is a `std::bad_alloc`. -/
def resize (E : Env) (h : SNDFILE) (n : Nat) : Option Exception :=
  if E.max_size < n then some .length_error
  else if n = 0 then none
  else if E.memory h n = true then none
  else some .bad_alloc

/-- Buffer content after `sf_read_short` stored `got` at its front. -/
def store (got buf : List Int) : List Int :=
  (got ++ buf.drop got.length).take buf.length

/-! ## The program -/

open SNDFILE in
/-- Translation of `combineSoundFiles` (main.cpp, lines 10 to 65). -/
def combineSoundFiles (E : Env) (inputFile1 inputFile2 outputFile : String) : Run :=
  -- read first file
  match E.sf_open_read inputSndFile1 inputFile1 with
  | none =>
    { trace :=
        [ .sf_open_read inputSndFile1 inputFile1 none,
          .cerr ("DJ Sacabambaspis can't open the input file named '" ++ inputFile1
                  ++ "': " ++ E.sf_strerror inputSndFile1 ++ "\n") ],
      outcome := .returned false }
  | some inputInfo1 =>
    -- read second file
    match E.sf_open_read inputSndFile2 inputFile2 with
    | none =>
      { trace :=
          [ .sf_open_read inputSndFile1 inputFile1 (some inputInfo1),
            .sf_open_read inputSndFile2 inputFile2 none,
            .cerr ("DJ Sacabambaspis can't open the input file named '" ++ inputFile2
                    ++ "': " ++ E.sf_strerror inputSndFile2 ++ "\n"),
            .sf_close inputSndFile1 ],
        outcome := .returned false }
    | some inputInfo2 =>
      -- retrieve first file properties
      let outputInfo : SF_INFO :=
        { E.outputInfo0 with
          samplerate := inputInfo1.samplerate
          channels := inputInfo1.channels
          format := inputInfo1.format }
      -- write to output sound file
      let ok := E.sf_open_write outputFile outputInfo
      let opens : List Event :=
        [ .sf_open_read inputSndFile1 inputFile1 (some inputInfo1),
          .sf_open_read inputSndFile2 inputFile2 (some inputInfo2),
          .sf_open_write outputSndFile outputFile outputInfo ok ]
      if ok = false then
        { trace := opens ++
            [ .cerr ("DJ Sacabambaspis can't open the output file named '" ++ outputFile
                      ++ "': " ++ E.sf_strerror outputSndFile ++ "\n"),
              .sf_close inputSndFile1,
              .sf_close inputSndFile2 ],
          outcome := .returned false }
      else
        -- check buffer sizes based on frames count of input files
        let n1 := bufferSize inputInfo1
        match resize E inputSndFile1 n1 with
        | some ex => { trace := opens, outcome := ex.outcome }
        | none =>
          let buf1 : List Int := List.replicate n1 0
          let n2 := bufferSize inputInfo2
          match resize E inputSndFile2 n2 with
          | some ex =>
            { trace := opens ++ [.resize inputSndFile1 n1], outcome := ex.outcome }
          | none =>
            let buf2 : List Int := List.replicate n2 0
            -- read data from first input file and write to output file
            let items1 := to_sf_count_t buf1.length
            let got1 := E.sf_read_short inputSndFile1 items1
            let buf1 := store got1 buf1
            let count := got1.length
            let out1 := buf1.take count
            -- read data from second input file and write to output file
            let items2 := to_sf_count_t buf2.length
            let got2 := E.sf_read_short inputSndFile2 items2
            let buf2 := store got2 buf2
            let count := got2.length
            let out2 := buf2.take count
            { trace := opens ++
                [ .resize inputSndFile1 n1,
                  .resize inputSndFile2 n2,
                  .sf_read_short inputSndFile1 items1 got1,
                  .sf_write_short outputSndFile out1 (E.sf_write_short [] out1),
                  .sf_read_short inputSndFile2 items2 got2,
                  .sf_write_short outputSndFile out2 (E.sf_write_short out1 out2),
                  -- handle file closing
                  .sf_close inputSndFile1,
                  .sf_close inputSndFile2,
                  .sf_close outputSndFile,
                  .cout ("DJ Sacabambaspis has successfully made your sound lo-fi."
                          ++ outputFile ++ "\n") ],
              outcome := .returned true }

/-- A run of the whole program: the events, and the exit code (`none` when
the process is terminated by the uncaught exception instead of exiting). -/
structure Process where
  trace : List Event
  exit : Option Int
deriving DecidableEq, Repr

/-- The rest of `main` after the paths are chosen (lines 91 to 95). -/
def exitWith (r : Run) : Process :=
  match r.outcome with
  | .returned true => { trace := r.trace, exit := some 0 }
  | .returned false => { trace := r.trace, exit := some 1 }
  | .length_error => { trace := r.trace, exit := none }
  | .bad_alloc => { trace := r.trace, exit := none }

/-- Translation of `main` (lines 69 to 96); `argv` holds all `argc` entries,
the program name first.  When `argc` is 0, `argv[0]` is a null pointer:
inserting it puts `std::cerr` in a failed state (libstdc++ sets `badbit`), so
the text before it is the last that is printed. -/
def main (E : Env) (argv : List String) : Process :=
  let defaultInputFile1 := "asset/ambient.wav"
  let argc := argv.length
  if argc = 4 then
    exitWith (combineSoundFiles E (argv.getD 1 "") (argv.getD 2 "") (argv.getD 3 ""))
  else if argc = 3 then
    exitWith (combineSoundFiles E defaultInputFile1 (argv.getD 1 "") (argv.getD 2 ""))
  else
    match argv.head? with
    | some argv0 =>
      { trace :=
          [ .cerr ("DJ Sacabambaspis cannot make music because there are an incorrect number of files." ++ "\n"),
            .cerr ("Provide either 2 or 3 arguments in the following format: " ++ argv0
                    ++ " <input_file1.wav> <input_file2.wav> <output_file.wav>" ++ "\n"),
            .cerr ("       " ++ argv0 ++ " <input_file2.wav> <output_file.wav>" ++ "\n") ],
        exit := some 1 }
    | none =>
      { trace :=
          [ .cerr ("DJ Sacabambaspis cannot make music because there are an incorrect number of files." ++ "\n"),
            .cerr "Provide either 2 or 3 arguments in the following format: " ],
        exit := some 1 }

/-! ## Observations on a trace -/

/-- The open attempts of a trace, in order, each with its success. -/
def opened : List Event → List (SNDFILE × Bool)
  | [] => []
  | .sf_open_read h _ r :: t => (h, r.isSome) :: opened t
  | .sf_open_write h _ _ ok :: t => (h, ok) :: opened t
  | _ :: t => opened t

/-- The handles closed in a trace, in order. -/
def closed : List Event → List SNDFILE
  | [] => []
  | .sf_close h :: t => h :: closed t
  | _ :: t => closed t

/-- The bulk reads of a trace: handle, item count requested, samples got. -/
def reads : List Event → List (SNDFILE × Int × List Int)
  | [] => []
  | .sf_read_short h items got :: t => (h, items, got) :: reads t
  | _ :: t => reads t

/-- The bulk writes of a trace: the handle written to and the sample block
passed. -/
def writes : List Event → List (SNDFILE × List Int)
  | [] => []
  | .sf_write_short h samples _ :: t => (h, samples) :: writes t
  | _ :: t => writes t

/-- The sample sequence written to the stream `h` over the whole trace. -/
def writtenTo (h : SNDFILE) (t : List Event) : List Int :=
  (((writes t).filter (fun w => decide (w.1 = h))).map Prod.snd).flatten

/-- The sample sequence written to the output over the whole trace. -/
def written (t : List Event) : List Int := writtenTo .outputSndFile t

/-- The buffers allocated in a trace: owner and length. -/
def resizes : List Event → List (SNDFILE × Nat)
  | [] => []
  | .resize h n :: t => (h, n) :: resizes t
  | _ :: t => resizes t

/-- Messages sent to standard error. -/
def stderr : List Event → List String
  | [] => []
  | .cerr m :: t => m :: stderr t
  | _ :: t => stderr t

/-- Messages sent to standard output. -/
def stdout : List Event → List String
  | [] => []
  | .cout m :: t => m :: stdout t
  | _ :: t => stdout t

/-- The descriptor `combineSoundFiles` builds for the output (lines 33 to 35),
read off the code: the local `outputInfo` with three fields overwritten. -/
def outputInfoFor (E : Env) (inputInfo1 : SF_INFO) : SF_INFO :=
  { E.outputInfo0 with
    samplerate := inputInfo1.samplerate
    channels := inputInfo1.channels
    format := inputInfo1.format }

/-- The samples the library delivers to the bulk read of handle `h` when the
buffer was sized from `info`. -/
def delivered (E : Env) (h : SNDFILE) (info : SF_INFO) : List Int :=
  E.sf_read_short h (to_sf_count_t (bufferSize info))

/-- The events of the three successful opens. -/
def opensOk (E : Env) (inputFile1 inputFile2 outputFile : String)
    (inputInfo1 inputInfo2 : SF_INFO) : List Event :=
  [ .sf_open_read .inputSndFile1 inputFile1 (some inputInfo1),
    .sf_open_read .inputSndFile2 inputFile2 (some inputInfo2),
    .sf_open_write .outputSndFile outputFile (outputInfoFor E inputInfo1) true ]

/-- An event is a bulk read or a bulk write. -/
def Event.isTransfer : Event → Bool
  | .sf_read_short _ _ _ => true
  | .sf_write_short _ _ _ => true
  | _ => false

/-- What the successful path does after the three opens. -/
def transferEvents (E : Env) (outputFile : String) (inputInfo1 inputInfo2 : SF_INFO) :
    List Event :=
  [ .resize .inputSndFile1 (bufferSize inputInfo1),
    .resize .inputSndFile2 (bufferSize inputInfo2),
    .sf_read_short .inputSndFile1 (to_sf_count_t (bufferSize inputInfo1))
      (delivered E .inputSndFile1 inputInfo1),
    .sf_write_short .outputSndFile (delivered E .inputSndFile1 inputInfo1)
      (E.sf_write_short [] (delivered E .inputSndFile1 inputInfo1)),
    .sf_read_short .inputSndFile2 (to_sf_count_t (bufferSize inputInfo2))
      (delivered E .inputSndFile2 inputInfo2),
    .sf_write_short .outputSndFile (delivered E .inputSndFile2 inputInfo2)
      (E.sf_write_short (delivered E .inputSndFile1 inputInfo1)
        (delivered E .inputSndFile2 inputInfo2)),
    .sf_close .inputSndFile1,
    .sf_close .inputSndFile2,
    .sf_close .outputSndFile,
    .cout ("DJ Sacabambaspis has successfully made your sound lo-fi." ++ outputFile ++ "\n") ]

/-- The descriptors passed to the open of the output, in order. -/
def outputDescriptors : List Event → List SF_INFO
  | [] => []
  | .sf_open_write _ _ info _ :: t => info :: outputDescriptors t
  | _ :: t => outputDescriptors t

/-- The handles whose open succeeded, in order of opening. -/
def openedOk (t : List Event) : List SNDFILE :=
  (opened t).filterMap (fun x => if x.2 = true then some x.1 else none)

/-- The event reads from or writes to the handle `h`. -/
def Event.transfersOn (h : SNDFILE) : Event → Bool
  | .sf_read_short k _ _ => decide (k = h)
  | .sf_write_short k _ _ => decide (k = h)
  | _ => false

/-- No handle is read or written after it was closed. -/
def noUseAfterClose : List Event → Bool
  | [] => true
  | .sf_close h :: t => t.all (fun e => !(e.transfersOn h)) && noUseAfterClose t
  | _ :: t => noUseAfterClose t

/-- The text `part` occurs in the message `msg`. -/
def Mentions (msg part : String) : Prop :=
  ∃ pre post : String, msg = pre ++ part ++ post

/-- The product `frames * channels` of a descriptor, as a mathematical
integer. -/
def product (info : SF_INFO) : Int := info.frames * info.channels

/-- The product `frames * channels` does not overflow `int64_t`. -/
def Representable (info : SF_INFO) : Prop :=
  -(2 ^ 63) ≤ product info ∧ product info < 2 ^ 63

/-- The buffer of input `h` can be sized from `info`: the product is between 0
and `max_size` and, unless it is 0, the allocator grants it. -/
def Fits (E : Env) (h : SNDFILE) (info : SF_INFO) : Prop :=
  0 ≤ product info ∧ product info ≤ E.max_size ∧
    (product info = 0 ∨ E.memory h (product info).toNat = true)

/-- The product is a representable value that `resize` rejects by its size:
negative (a huge `size_t` after conversion) or above `max_size`. -/
def TooLong (E : Env) (info : SF_INFO) : Prop :=
  Representable info ∧ (product info < 0 ∨ (E.max_size : Int) < product info)

/-- The product is an admissible size, not 0, and the allocator refuses it. -/
def Refused (E : Env) (h : SNDFILE) (info : SF_INFO) : Prop :=
  0 < product info ∧ product info ≤ E.max_size ∧
    E.memory h (product info).toNat = false

instance (info : SF_INFO) : Decidable (Representable info) := by
  unfold Representable
  infer_instance

instance (E : Env) (h : SNDFILE) (info : SF_INFO) : Decidable (Fits E h info) := by
  unfold Fits
  infer_instance

instance (E : Env) (info : SF_INFO) : Decidable (TooLong E info) := by
  unfold TooLong
  infer_instance

instance (E : Env) (h : SNDFILE) (info : SF_INFO) : Decidable (Refused E h info) := by
  unfold Refused
  infer_instance

/-! ## Concrete worlds -/

/-- A descriptor of a 16-bit PCM WAV stream at 44100 Hz. -/
def wav (frames channels : Int) : SF_INFO :=
  { frames := frames, samplerate := 44100, channels := channels,
    format := 65538, sections := 1, seekable := 1 }

/-- The sample sequence a world holds for a handle. -/
def samplesOf (A B : Option (SF_INFO × List Int)) : SNDFILE → List Int
  | .inputSndFile1 => (A.map Prod.snd).getD []
  | _ => (B.map Prod.snd).getD []

/-- A world in which input 1 and input 2 are the given streams (`none`: the
file cannot be opened), the output opens or not as `outOk` says, every read
delivers the stream from its start up to the requested count, every write
takes all it is given, vectors hold up to `2^62 - 1` elements and the
allocator grants every admissible size. -/
def world (A B : Option (SF_INFO × List Int)) (outOk : Bool) : Env where
  sf_open_read := fun h _ =>
    match h with
    | .inputSndFile1 => A.map Prod.fst
    | _ => B.map Prod.fst
  sf_open_write := fun _ _ => outOk
  sf_read_short := fun h items => (samplesOf A B h).take items.toNat
  sf_write_short := fun _ samples => samples.length
  sf_strerror := fun _ => "System error : No such file or directory."
  outputInfo0 := { frames := 0, samplerate := 0, channels := 0, format := 0,
                   sections := 0, seekable := 0 }
  max_size := 4611686018427387903
  memory := fun _ _ => true
  read_le := fun h items => by simp [List.length_take]
  max_size_lt := by norm_num

/-- The world `W` on a machine whose allocator grants at most `limit`
samples. -/
def lowMemory (limit : Nat) (W : Env) : Env :=
  { W with memory := fun _ n => decide (n ≤ limit) }

/-- A two-channel stream of three frames. -/
def streamA : SF_INFO × List Int := (wav 3 2, [10, -11, 20, -21, 30, -31])

/-- A one-channel stream of two frames at another rate. -/
def streamB : SF_INFO × List Int :=
  ({ wav 2 1 with samplerate := 8000 }, [7, 8])

/-! ## Arithmetic lemmas -/

theorem to_size_t_int64_wrap (x : Int) : to_size_t (int64_wrap x) = (x % 2 ^ 64).toNat := by
  unfold to_size_t int64_wrap
  congr 1
  omega

theorem bufferSize_eq (info : SF_INFO) :
    bufferSize info = ((info.frames * info.channels) % 2 ^ 64).toNat := by
  unfold bufferSize
  exact to_size_t_int64_wrap _

theorem to_sf_count_t_of_lt (n : Nat) (h : n < 2 ^ 63) : to_sf_count_t n = (n : Int) := by
  unfold to_sf_count_t int64_wrap
  omega

theorem store_take (got buf : List Int) (h : got.length ≤ buf.length) :
    (store got buf).take got.length = got := by
  unfold store
  rw [List.take_take, Nat.min_eq_left h, List.take_left]

/-- Under the library contract the block passed on to the write is exactly
what the read delivered. -/
theorem passed_eq_delivered (E : Env) (h : SNDFILE) (n : Nat) (hn : n ≤ E.max_size) :
    (store (E.sf_read_short h (to_sf_count_t (List.replicate n (0 : Int)).length))
        (List.replicate n 0)).take
      (E.sf_read_short h (to_sf_count_t (List.replicate n (0 : Int)).length)).length
      = E.sf_read_short h (to_sf_count_t n) := by
  have hlt : n < 2 ^ 63 := Nat.lt_of_le_of_lt hn E.max_size_lt
  have hle := E.read_le h (to_sf_count_t n)
  rw [to_sf_count_t_of_lt n hlt, Int.toNat_natCast] at hle
  simp only [List.length_replicate]
  rw [store_take]
  rw [to_sf_count_t_of_lt n hlt]
  simpa using hle

/-! ## The allocation step -/

theorem le_max_size_of_resize (E : Env) (h : SNDFILE) (n : Nat)
    (hr : resize E h n = none) : n ≤ E.max_size := by
  unfold resize at hr
  by_cases hlt : E.max_size < n
  · simp [hlt] at hr
  · exact Nat.le_of_not_lt hlt

theorem bufferSize_of_nonneg (info : SF_INFO) (h0 : 0 ≤ product info)
    (hlt : product info < 2 ^ 63) : bufferSize info = (product info).toNat := by
  rw [bufferSize_eq]
  unfold product at h0 hlt ⊢
  rw [Int.emod_eq_of_lt h0 (by omega)]

theorem resize_of_fits (E : Env) (h : SNDFILE) (info : SF_INFO) (hf : Fits E h info) :
    bufferSize info = (product info).toNat ∧ ((bufferSize info : Nat) : Int) = product info ∧
    resize E h (bufferSize info) = none := by
  obtain ⟨h0, hle, hm⟩ := hf
  have hmax := E.max_size_lt
  have hb := bufferSize_of_nonneg info h0 (by omega)
  refine ⟨hb, by rw [hb]; omega, ?_⟩
  rw [hb]
  unfold resize
  have h1 : ¬ E.max_size < (product info).toNat := by omega
  rcases hm with hz | hm
  · simp [h1, hz]
  · simp [h1, hm]

theorem resize_of_tooLong (E : Env) (h : SNDFILE) (info : SF_INFO) (ht : TooLong E info) :
    resize E h (bufferSize info) = some .length_error := by
  obtain ⟨⟨hlo, hhi⟩, hcase⟩ := ht
  have hmax := E.max_size_lt
  have hb : E.max_size < bufferSize info := by
    rw [bufferSize_eq]
    unfold product at hlo hhi hcase
    rcases hcase with hneg | hbig
    · have : (info.frames * info.channels) % 2 ^ 64
          = info.frames * info.channels + 2 ^ 64 := by omega
      rw [this]
      omega
    · rw [Int.emod_eq_of_lt (by omega) (by omega)]
      omega
  unfold resize
  simp [hb]

theorem resize_of_refused (E : Env) (h : SNDFILE) (info : SF_INFO) (hr : Refused E h info) :
    resize E h (bufferSize info) = some .bad_alloc := by
  obtain ⟨h0, hle, hm⟩ := hr
  have hmax := E.max_size_lt
  have hb := bufferSize_of_nonneg info (by omega) (by omega)
  rw [hb]
  unfold resize
  have h1 : ¬ E.max_size < (product info).toNat := by omega
  have h2 : (product info).toNat ≠ 0 := by omega
  simp [h1, h2, hm]

/-! ## The paths through `combineSoundFiles` -/

theorem run_open1_fail (E : Env) (p1 p2 po : String)
    (h1 : E.sf_open_read .inputSndFile1 p1 = none) :
    combineSoundFiles E p1 p2 po =
      { trace :=
          [ .sf_open_read .inputSndFile1 p1 none,
            .cerr ("DJ Sacabambaspis can't open the input file named '" ++ p1
                    ++ "': " ++ E.sf_strerror .inputSndFile1 ++ "\n") ],
        outcome := .returned false } := by
  unfold combineSoundFiles
  rw [h1]

theorem run_open2_fail (E : Env) (p1 p2 po : String) (i1 : SF_INFO)
    (h1 : E.sf_open_read .inputSndFile1 p1 = some i1)
    (h2 : E.sf_open_read .inputSndFile2 p2 = none) :
    combineSoundFiles E p1 p2 po =
      { trace :=
          [ .sf_open_read .inputSndFile1 p1 (some i1),
            .sf_open_read .inputSndFile2 p2 none,
            .cerr ("DJ Sacabambaspis can't open the input file named '" ++ p2
                    ++ "': " ++ E.sf_strerror .inputSndFile2 ++ "\n"),
            .sf_close .inputSndFile1 ],
        outcome := .returned false } := by
  unfold combineSoundFiles
  rw [h1]
  simp only []
  rw [h2]

theorem run_open3_fail (E : Env) (p1 p2 po : String) (i1 i2 : SF_INFO)
    (h1 : E.sf_open_read .inputSndFile1 p1 = some i1)
    (h2 : E.sf_open_read .inputSndFile2 p2 = some i2)
    (ho : E.sf_open_write po (outputInfoFor E i1) = false) :
    combineSoundFiles E p1 p2 po =
      { trace :=
          [ .sf_open_read .inputSndFile1 p1 (some i1),
            .sf_open_read .inputSndFile2 p2 (some i2),
            .sf_open_write .outputSndFile po (outputInfoFor E i1) false,
            .cerr ("DJ Sacabambaspis can't open the output file named '" ++ po
                    ++ "': " ++ E.sf_strerror .outputSndFile ++ "\n"),
            .sf_close .inputSndFile1,
            .sf_close .inputSndFile2 ],
        outcome := .returned false } := by
  unfold outputInfoFor at ho
  unfold combineSoundFiles
  rw [h1]
  simp only []
  rw [h2]
  simp [ho, outputInfoFor]

theorem run_resize1_throws (E : Env) (p1 p2 po : String) (i1 i2 : SF_INFO) (ex : Exception)
    (h1 : E.sf_open_read .inputSndFile1 p1 = some i1)
    (h2 : E.sf_open_read .inputSndFile2 p2 = some i2)
    (ho : E.sf_open_write po (outputInfoFor E i1) = true)
    (hr1 : resize E .inputSndFile1 (bufferSize i1) = some ex) :
    combineSoundFiles E p1 p2 po =
      { trace := opensOk E p1 p2 po i1 i2, outcome := ex.outcome } := by
  unfold outputInfoFor at ho
  unfold combineSoundFiles
  rw [h1]
  simp only []
  rw [h2]
  simp only [ho, Bool.true_eq_false, if_false]
  rw [hr1]
  simp [opensOk, outputInfoFor]

theorem run_resize2_throws (E : Env) (p1 p2 po : String) (i1 i2 : SF_INFO) (ex : Exception)
    (h1 : E.sf_open_read .inputSndFile1 p1 = some i1)
    (h2 : E.sf_open_read .inputSndFile2 p2 = some i2)
    (ho : E.sf_open_write po (outputInfoFor E i1) = true)
    (hr1 : resize E .inputSndFile1 (bufferSize i1) = none)
    (hr2 : resize E .inputSndFile2 (bufferSize i2) = some ex) :
    combineSoundFiles E p1 p2 po =
      { trace := opensOk E p1 p2 po i1 i2 ++ [.resize .inputSndFile1 (bufferSize i1)],
        outcome := ex.outcome } := by
  unfold outputInfoFor at ho
  unfold combineSoundFiles
  rw [h1]
  simp only []
  rw [h2]
  simp only [ho, Bool.true_eq_false, if_false]
  rw [hr1]
  simp only []
  rw [hr2]
  simp [opensOk, outputInfoFor]

theorem run_success (E : Env) (p1 p2 po : String) (i1 i2 : SF_INFO)
    (h1 : E.sf_open_read .inputSndFile1 p1 = some i1)
    (h2 : E.sf_open_read .inputSndFile2 p2 = some i2)
    (ho : E.sf_open_write po (outputInfoFor E i1) = true)
    (hr1 : resize E .inputSndFile1 (bufferSize i1) = none)
    (hr2 : resize E .inputSndFile2 (bufferSize i2) = none) :
    combineSoundFiles E p1 p2 po =
      { trace := opensOk E p1 p2 po i1 i2 ++ transferEvents E po i1 i2,
        outcome := .returned true } := by
  have e1 := passed_eq_delivered E .inputSndFile1 (bufferSize i1)
    (le_max_size_of_resize E _ _ hr1)
  have e2 := passed_eq_delivered E .inputSndFile2 (bufferSize i2)
    (le_max_size_of_resize E _ _ hr2)
  unfold outputInfoFor at ho
  unfold combineSoundFiles
  rw [h1]
  simp only []
  rw [h2]
  simp only [ho, Bool.true_eq_false, if_false]
  rw [hr1]
  simp only []
  rw [hr2]
  simp only []
  rw [e1, e2]
  simp [opensOk, transferEvents, delivered, outputInfoFor]

/-! ## Order of the opens -/

/-- C3: the opens are attempted in the order input 1, input 2, output and stop at
the first failure.  If input 1 fails it is the only open attempted; if input 1
opens and input 2 fails, exactly these two are attempted; if both inputs open,
the output is attempted third; and whenever the output is opened at all, both
inputs were opened successfully before it. -/
theorem opens_in_order_stop_at_first_failure (E : Env) (p1 p2 po : String) :
    (E.sf_open_read .inputSndFile1 p1 = none →
      opened (combineSoundFiles E p1 p2 po).trace = [(.inputSndFile1, false)]) ∧
    (∀ i1, E.sf_open_read .inputSndFile1 p1 = some i1 →
      E.sf_open_read .inputSndFile2 p2 = none →
      opened (combineSoundFiles E p1 p2 po).trace
        = [(.inputSndFile1, true), (.inputSndFile2, false)]) ∧
    (∀ i1 i2, E.sf_open_read .inputSndFile1 p1 = some i1 →
      E.sf_open_read .inputSndFile2 p2 = some i2 →
      opened (combineSoundFiles E p1 p2 po).trace
        = [(.inputSndFile1, true), (.inputSndFile2, true),
           (.outputSndFile, E.sf_open_write po (outputInfoFor E i1))]) ∧
    (∀ b, (SNDFILE.outputSndFile, b) ∈ opened (combineSoundFiles E p1 p2 po).trace →
      opened (combineSoundFiles E p1 p2 po).trace
        = [(.inputSndFile1, true), (.inputSndFile2, true), (.outputSndFile, b)]) := by
  cases h1 : E.sf_open_read .inputSndFile1 p1 with
  | none =>
    rw [run_open1_fail E p1 p2 po h1]
    simp [opened]
  | some i1 =>
    cases h2 : E.sf_open_read .inputSndFile2 p2 with
    | none =>
      rw [run_open2_fail E p1 p2 po i1 h1 h2]
      simp [opened]
    | some i2 =>
      cases ho : E.sf_open_write po (outputInfoFor E i1) with
      | false =>
        rw [run_open3_fail E p1 p2 po i1 i2 h1 h2 ho]
        simp [opened, ho]
      | true =>
        cases hr1 : resize E .inputSndFile1 (bufferSize i1) with
        | some ex =>
          rw [run_resize1_throws E p1 p2 po i1 i2 ex h1 h2 ho hr1]
          cases ex <;> simp [opened, opensOk, ho, Exception.outcome]
        | none =>
          cases hr2 : resize E .inputSndFile2 (bufferSize i2) with
          | some ex =>
            rw [run_resize2_throws E p1 p2 po i1 i2 ex h1 h2 ho hr1 hr2]
            cases ex <;> simp [opened, opensOk, ho, Exception.outcome]
          | none =>
            rw [run_success E p1 p2 po i1 i2 h1 h2 ho hr1 hr2]
            simp [opened, opensOk, transferEvents, ho]

theorem opens_in_order_stop_at_first_failure_witness :
    opened (combineSoundFiles (world (some streamA) none true) "a.wav" "b.wav" "o.wav").trace
      = [(.inputSndFile1, true), (.inputSndFile2, false)] :=
  (opens_in_order_stop_at_first_failure (world (some streamA) none true)
    "a.wav" "b.wav" "o.wav").2.1 streamA.1 rfl rfl

/-! ## Transfers happen only after the three opens -/

/-- C9: when `combineSoundFiles` returns failure the run holds no bulk read and no
bulk write; and in every run, each bulk read or write comes after the three
successful opens (input 1, input 2, output), which start the trace. -/
theorem no_transfer_before_all_opens (E : Env) (p1 p2 po : String) :
    ((combineSoundFiles E p1 p2 po).outcome = .returned false →
      reads (combineSoundFiles E p1 p2 po).trace = [] ∧
      writes (combineSoundFiles E p1 p2 po).trace = []) ∧
    (∀ e ∈ (combineSoundFiles E p1 p2 po).trace, e.isTransfer = true →
      ∃ i1 i2 rest,
        E.sf_open_read .inputSndFile1 p1 = some i1 ∧
        E.sf_open_read .inputSndFile2 p2 = some i2 ∧
        E.sf_open_write po (outputInfoFor E i1) = true ∧
        (combineSoundFiles E p1 p2 po).trace = opensOk E p1 p2 po i1 i2 ++ rest ∧
        e ∈ rest) := by
  cases h1 : E.sf_open_read .inputSndFile1 p1 with
  | none =>
    rw [run_open1_fail E p1 p2 po h1]
    simp [reads, writes, Event.isTransfer]
  | some i1 =>
    cases h2 : E.sf_open_read .inputSndFile2 p2 with
    | none =>
      rw [run_open2_fail E p1 p2 po i1 h1 h2]
      simp [reads, writes, Event.isTransfer]
    | some i2 =>
      cases ho : E.sf_open_write po (outputInfoFor E i1) with
      | false =>
        rw [run_open3_fail E p1 p2 po i1 i2 h1 h2 ho]
        simp [reads, writes, Event.isTransfer]
      | true =>
        cases hr1 : resize E .inputSndFile1 (bufferSize i1) with
        | some ex =>
          rw [run_resize1_throws E p1 p2 po i1 i2 ex h1 h2 ho hr1]
          cases ex <;> simp [opensOk, Event.isTransfer, reads, writes, Exception.outcome]
        | none =>
          cases hr2 : resize E .inputSndFile2 (bufferSize i2) with
          | some ex =>
            rw [run_resize2_throws E p1 p2 po i1 i2 ex h1 h2 ho hr1 hr2]
            cases ex <;> simp [opensOk, Event.isTransfer, reads, writes, Exception.outcome]
          | none =>
            rw [run_success E p1 p2 po i1 i2 h1 h2 ho hr1 hr2]
            refine ⟨by simp, ?_⟩
            intro e he ht
            refine ⟨i1, i2, transferEvents E po i1 i2, rfl, rfl, ho, rfl, ?_⟩
            rcases List.mem_append.mp he with h | h
            · simp [opensOk] at h
              rcases h with h | h | h <;> (subst h; simp [Event.isTransfer] at ht)
            · exact h

theorem no_transfer_before_all_opens_witness :
    reads (combineSoundFiles (world (some streamA) (some streamB) false)
        "a.wav" "b.wav" "o.wav").trace = [] ∧
    writes (combineSoundFiles (world (some streamA) (some streamB) false)
        "a.wav" "b.wav" "o.wav").trace = [] :=
  (no_transfer_before_all_opens (world (some streamA) (some streamB) false)
    "a.wav" "b.wav" "o.wav").1 (by decide)

/-! ## Release of the streams -/

/-- C4, counterexample: input 1 declares `2^62` frames of one channel; the three
opens succeed, the first `resize` throws, and the function is left with the
three streams open: none of them has been closed. -/
theorem streams_left_open_when_resize_throws :
    openedOk (combineSoundFiles
        (world (some (wav 4611686018427387904 1, [])) (some streamB) true)
        "a.wav" "b.wav" "o.wav").trace
      = [.inputSndFile1, .inputSndFile2, .outputSndFile] ∧
    closed (combineSoundFiles
        (world (some (wav 4611686018427387904 1, [])) (some streamB) true)
        "a.wav" "b.wav" "o.wav").trace = [] ∧
    (combineSoundFiles
        (world (some (wav 4611686018427387904 1, [])) (some streamB) true)
        "a.wav" "b.wav" "o.wav").outcome = .length_error := by
  decide

/-- C4, amended: on every path on which `combineSoundFiles` returns, the streams
closed are exactly the streams whose open succeeded, each closed once, and no
stream is read or written after its close: none when input 1 fails to open,
input 1 only when input 2 fails, both inputs when the output fails, all three
when the function returns success.  On the paths left by a throwing `resize`
(`std::length_error` or `std::bad_alloc`) the three streams are open and none
is closed. -/
theorem closes_exactly_the_opened_streams (E : Env) (p1 p2 po : String) :
    (∀ b, (combineSoundFiles E p1 p2 po).outcome = .returned b →
      closed (combineSoundFiles E p1 p2 po).trace
        = openedOk (combineSoundFiles E p1 p2 po).trace ∧
      (closed (combineSoundFiles E p1 p2 po).trace).Nodup ∧
      noUseAfterClose (combineSoundFiles E p1 p2 po).trace = true) ∧
    (E.sf_open_read .inputSndFile1 p1 = none →
      closed (combineSoundFiles E p1 p2 po).trace = []) ∧
    (∀ i1, E.sf_open_read .inputSndFile1 p1 = some i1 →
      E.sf_open_read .inputSndFile2 p2 = none →
      closed (combineSoundFiles E p1 p2 po).trace = [.inputSndFile1]) ∧
    (∀ i1 i2, E.sf_open_read .inputSndFile1 p1 = some i1 →
      E.sf_open_read .inputSndFile2 p2 = some i2 →
      E.sf_open_write po (outputInfoFor E i1) = false →
      closed (combineSoundFiles E p1 p2 po).trace = [.inputSndFile1, .inputSndFile2]) ∧
    ((combineSoundFiles E p1 p2 po).outcome = .returned true →
      closed (combineSoundFiles E p1 p2 po).trace
        = [.inputSndFile1, .inputSndFile2, .outputSndFile]) ∧
    ((combineSoundFiles E p1 p2 po).outcome = .length_error →
      openedOk (combineSoundFiles E p1 p2 po).trace
        = [.inputSndFile1, .inputSndFile2, .outputSndFile] ∧
      closed (combineSoundFiles E p1 p2 po).trace = []) ∧
    ((combineSoundFiles E p1 p2 po).outcome = .bad_alloc →
      openedOk (combineSoundFiles E p1 p2 po).trace
        = [.inputSndFile1, .inputSndFile2, .outputSndFile] ∧
      closed (combineSoundFiles E p1 p2 po).trace = []) := by
  cases h1 : E.sf_open_read .inputSndFile1 p1 with
  | none =>
    rw [run_open1_fail E p1 p2 po h1]
    simp [closed, openedOk, opened, noUseAfterClose]
  | some i1 =>
    cases h2 : E.sf_open_read .inputSndFile2 p2 with
    | none =>
      rw [run_open2_fail E p1 p2 po i1 h1 h2]
      simp [closed, openedOk, opened, noUseAfterClose]
    | some i2 =>
      cases ho : E.sf_open_write po (outputInfoFor E i1) with
      | false =>
        rw [run_open3_fail E p1 p2 po i1 i2 h1 h2 ho]
        simp [closed, openedOk, opened, noUseAfterClose, Event.transfersOn]
      | true =>
        cases hr1 : resize E .inputSndFile1 (bufferSize i1) with
        | some ex =>
          rw [run_resize1_throws E p1 p2 po i1 i2 ex h1 h2 ho hr1]
          cases ex <;> simp [closed, openedOk, opened, opensOk, ho, Exception.outcome]
        | none =>
          cases hr2 : resize E .inputSndFile2 (bufferSize i2) with
          | some ex =>
            rw [run_resize2_throws E p1 p2 po i1 i2 ex h1 h2 ho hr1 hr2]
            cases ex <;> simp [closed, openedOk, opened, opensOk, ho, Exception.outcome]
          | none =>
            rw [run_success E p1 p2 po i1 i2 h1 h2 ho hr1 hr2]
            simp [closed, openedOk, opened, noUseAfterClose, Event.transfersOn, opensOk,
              transferEvents, ho]

theorem closes_exactly_the_opened_streams_witness :
    closed (combineSoundFiles (world (some streamA) (some streamB) true)
        "a.wav" "b.wav" "o.wav").trace
      = [.inputSndFile1, .inputSndFile2, .outputSndFile] :=
  (closes_exactly_the_opened_streams (world (some streamA) (some streamB) true)
    "a.wav" "b.wav" "o.wav").2.2.2.2.1 (by decide)

/-! ## Messages -/

/-- C7, counterexample: input 1 declares `2^63 - 1` frames of one channel (the
value libsndfile uses for an unknown length), every open succeeds, the first
`resize` throws, and the run has emitted no message at all. -/
theorem run_without_any_message :
    stderr (combineSoundFiles
        (world (some (wav 9223372036854775807 1, [])) (some streamB) true)
        "a.wav" "b.wav" "o.wav").trace = [] ∧
    stdout (combineSoundFiles
        (world (some (wav 9223372036854775807 1, [])) (some streamB) true)
        "a.wav" "b.wav" "o.wav").trace = [] := by
  decide

/-- C7, amended: every run of `combineSoundFiles` that returns emits exactly one
message.  When an open fails it is a message on standard error that contains
the path whose open failed and the library's error text, with nothing on
standard output; when the function returns success it is a message on
standard output that contains the output path, with nothing on standard
error.  A run ended by a throwing `resize` (`std::length_error` or
`std::bad_alloc`) emits no message. -/
theorem one_message_per_returning_run (E : Env) (p1 p2 po : String) :
    (∀ b, (combineSoundFiles E p1 p2 po).outcome = .returned b →
      (stderr (combineSoundFiles E p1 p2 po).trace).length
        + (stdout (combineSoundFiles E p1 p2 po).trace).length = 1) ∧
    (E.sf_open_read .inputSndFile1 p1 = none →
      stdout (combineSoundFiles E p1 p2 po).trace = [] ∧
      ∃ m, stderr (combineSoundFiles E p1 p2 po).trace = [m] ∧
        Mentions m p1 ∧ Mentions m (E.sf_strerror .inputSndFile1)) ∧
    (∀ i1, E.sf_open_read .inputSndFile1 p1 = some i1 →
      E.sf_open_read .inputSndFile2 p2 = none →
      stdout (combineSoundFiles E p1 p2 po).trace = [] ∧
      ∃ m, stderr (combineSoundFiles E p1 p2 po).trace = [m] ∧
        Mentions m p2 ∧ Mentions m (E.sf_strerror .inputSndFile2)) ∧
    (∀ i1 i2, E.sf_open_read .inputSndFile1 p1 = some i1 →
      E.sf_open_read .inputSndFile2 p2 = some i2 →
      E.sf_open_write po (outputInfoFor E i1) = false →
      stdout (combineSoundFiles E p1 p2 po).trace = [] ∧
      ∃ m, stderr (combineSoundFiles E p1 p2 po).trace = [m] ∧
        Mentions m po ∧ Mentions m (E.sf_strerror .outputSndFile)) ∧
    ((combineSoundFiles E p1 p2 po).outcome = .returned true →
      stderr (combineSoundFiles E p1 p2 po).trace = [] ∧
      ∃ m, stdout (combineSoundFiles E p1 p2 po).trace = [m] ∧ Mentions m po) ∧
    ((combineSoundFiles E p1 p2 po).outcome = .length_error →
      stderr (combineSoundFiles E p1 p2 po).trace = [] ∧
      stdout (combineSoundFiles E p1 p2 po).trace = []) ∧
    ((combineSoundFiles E p1 p2 po).outcome = .bad_alloc →
      stderr (combineSoundFiles E p1 p2 po).trace = [] ∧
      stdout (combineSoundFiles E p1 p2 po).trace = []) := by
  have mention_path : ∀ a x b c d : String, Mentions (a ++ x ++ b ++ c ++ d) x :=
    fun a x b c d => ⟨a, b ++ c ++ d, by simp [String.append_assoc]⟩
  have mention_text : ∀ a x b c d : String, Mentions (a ++ x ++ b ++ c ++ d) c :=
    fun a x b c d => ⟨a ++ x ++ b, d, rfl⟩
  cases h1 : E.sf_open_read .inputSndFile1 p1 with
  | none =>
    rw [run_open1_fail E p1 p2 po h1]
    simp [stderr, stdout, mention_path, mention_text]
  | some i1 =>
    cases h2 : E.sf_open_read .inputSndFile2 p2 with
    | none =>
      rw [run_open2_fail E p1 p2 po i1 h1 h2]
      simp [stderr, stdout, mention_path, mention_text]
    | some i2 =>
      cases ho : E.sf_open_write po (outputInfoFor E i1) with
      | false =>
        rw [run_open3_fail E p1 p2 po i1 i2 h1 h2 ho]
        simp [stderr, stdout, mention_path, mention_text]
      | true =>
        cases hr1 : resize E .inputSndFile1 (bufferSize i1) with
        | some ex =>
          rw [run_resize1_throws E p1 p2 po i1 i2 ex h1 h2 ho hr1]
          cases ex <;> simp [stderr, stdout, opensOk, ho, Exception.outcome]
        | none =>
          cases hr2 : resize E .inputSndFile2 (bufferSize i2) with
          | some ex =>
            rw [run_resize2_throws E p1 p2 po i1 i2 ex h1 h2 ho hr1 hr2]
            cases ex <;> simp [stderr, stdout, opensOk, ho, Exception.outcome]
          | none =>
            rw [run_success E p1 p2 po i1 i2 h1 h2 ho hr1 hr2]
            simp only [stderr, stdout, opensOk, transferEvents, List.cons_append,
              List.nil_append, ho]
            simp
            exact ⟨ho, "DJ Sacabambaspis has successfully made your sound lo-fi.", "\n", rfl⟩

theorem one_message_per_returning_run_witness :
    stdout (combineSoundFiles (world none (some streamB) true) "a.wav" "b.wav" "o.wav").trace
      = [] ∧
    ∃ m, stderr (combineSoundFiles (world none (some streamB) true)
          "a.wav" "b.wav" "o.wav").trace = [m] ∧
      Mentions m "a.wav" ∧
      Mentions m ((world none (some streamB) true).sf_strerror .inputSndFile1) :=
  (one_message_per_returning_run (world none (some streamB) true)
    "a.wav" "b.wav" "o.wav").2.1 rfl


/-! ## The returned value -/

/-- C5, counterexample: input 1 is `streamA`, input 2 declares `3 * 2^60` frames of
two channels (a product below `2^63`, so nothing overflows), all three opens
succeed, and the call does not return success: the second `resize` is asked
for more than `max_size` elements and throws. -/
theorem all_opens_succeed_without_success :
    opened (combineSoundFiles
        (world (some streamA) (some (wav 3458764513820540928 2, [])) true)
        "a.wav" "b.wav" "o.wav").trace
      = [(.inputSndFile1, true), (.inputSndFile2, true), (.outputSndFile, true)] ∧
    Representable (wav 3458764513820540928 2) ∧
    (combineSoundFiles
        (world (some streamA) (some (wav 3458764513820540928 2, [])) true)
        "a.wav" "b.wav" "o.wav").outcome = .length_error ∧
    (combineSoundFiles
        (world (some streamA) (some (wav 3458764513820540928 2, [])) true)
        "a.wav" "b.wav" "o.wav").outcome ≠ .returned true := by
  decide

/-- C5, amended: `combineSoundFiles` returns failure if and only if one of its
three opens fails.  When all three opens succeed and both buffers can be
sized (each product `frames * channels` is between 0 and `max_size` and the
allocator grants it), it returns success, whatever the bulk reads and writes
return.  When all three opens succeed and a `resize` throws, the function
does not return: with `std::length_error` when a product (within the `int64`
range) is negative or above `max_size`, with `std::bad_alloc` when the
allocator refuses. -/
theorem returns_failure_iff_an_open_failed (E : Env) (p1 p2 po : String) :
    ((combineSoundFiles E p1 p2 po).outcome = .returned false ↔
      ∃ h, (h, false) ∈ opened (combineSoundFiles E p1 p2 po).trace) ∧
    (∀ i1 i2, E.sf_open_read .inputSndFile1 p1 = some i1 →
      E.sf_open_read .inputSndFile2 p2 = some i2 →
      E.sf_open_write po (outputInfoFor E i1) = true →
      Fits E .inputSndFile1 i1 → Fits E .inputSndFile2 i2 →
      (combineSoundFiles E p1 p2 po).outcome = .returned true) ∧
    (∀ i1 i2, E.sf_open_read .inputSndFile1 p1 = some i1 →
      E.sf_open_read .inputSndFile2 p2 = some i2 →
      E.sf_open_write po (outputInfoFor E i1) = true →
      (TooLong E i1 ∨ (Fits E .inputSndFile1 i1 ∧ TooLong E i2)) →
      (combineSoundFiles E p1 p2 po).outcome = .length_error) ∧
    (∀ i1 i2, E.sf_open_read .inputSndFile1 p1 = some i1 →
      E.sf_open_read .inputSndFile2 p2 = some i2 →
      E.sf_open_write po (outputInfoFor E i1) = true →
      (Refused E .inputSndFile1 i1 ∨ (Fits E .inputSndFile1 i1 ∧ Refused E .inputSndFile2 i2)) →
      (combineSoundFiles E p1 p2 po).outcome = .bad_alloc) := by
  refine ⟨?_, ?_, ?_, ?_⟩
  · cases h1 : E.sf_open_read .inputSndFile1 p1 with
    | none =>
      rw [run_open1_fail E p1 p2 po h1]
      simp [opened]
    | some i1 =>
      cases h2 : E.sf_open_read .inputSndFile2 p2 with
      | none =>
        rw [run_open2_fail E p1 p2 po i1 h1 h2]
        simp [opened]
      | some i2 =>
        cases ho : E.sf_open_write po (outputInfoFor E i1) with
        | false =>
          rw [run_open3_fail E p1 p2 po i1 i2 h1 h2 ho]
          simp [opened]
        | true =>
          cases hr1 : resize E .inputSndFile1 (bufferSize i1) with
          | some ex =>
            rw [run_resize1_throws E p1 p2 po i1 i2 ex h1 h2 ho hr1]
            cases ex <;> simp [opened, opensOk, Exception.outcome]
          | none =>
            cases hr2 : resize E .inputSndFile2 (bufferSize i2) with
            | some ex =>
              rw [run_resize2_throws E p1 p2 po i1 i2 ex h1 h2 ho hr1 hr2]
              cases ex <;> simp [opened, opensOk, Exception.outcome]
            | none =>
              rw [run_success E p1 p2 po i1 i2 h1 h2 ho hr1 hr2]
              simp [opened, opensOk, transferEvents]
  · intro i1 i2 h1 h2 ho f1 f2
    rw [run_success E p1 p2 po i1 i2 h1 h2 ho (resize_of_fits E _ i1 f1).2.2
      (resize_of_fits E _ i2 f2).2.2]
  · intro i1 i2 h1 h2 ho hc
    rcases hc with t1 | ⟨f1, t2⟩
    · rw [run_resize1_throws E p1 p2 po i1 i2 _ h1 h2 ho (resize_of_tooLong E _ i1 t1)]
      rfl
    · rw [run_resize2_throws E p1 p2 po i1 i2 _ h1 h2 ho (resize_of_fits E _ i1 f1).2.2
        (resize_of_tooLong E _ i2 t2)]
      rfl
  · intro i1 i2 h1 h2 ho hc
    rcases hc with t1 | ⟨f1, t2⟩
    · rw [run_resize1_throws E p1 p2 po i1 i2 _ h1 h2 ho (resize_of_refused E _ i1 t1)]
      rfl
    · rw [run_resize2_throws E p1 p2 po i1 i2 _ h1 h2 ho (resize_of_fits E _ i1 f1).2.2
        (resize_of_refused E _ i2 t2)]
      rfl

theorem returns_failure_iff_an_open_failed_witness :
    (combineSoundFiles (world (some streamA) (some streamB) true)
        "a.wav" "b.wav" "o.wav").outcome = .returned true ∧
    (combineSoundFiles (lowMemory 4 (world (some streamA) (some streamB) true))
        "a.wav" "b.wav" "o.wav").outcome = .bad_alloc :=
  ⟨(returns_failure_iff_an_open_failed (world (some streamA) (some streamB) true)
      "a.wav" "b.wav" "o.wav").2.1 streamA.1 streamB.1 rfl rfl rfl (by decide) (by decide),
   (returns_failure_iff_an_open_failed (lowMemory 4 (world (some streamA) (some streamB) true))
      "a.wav" "b.wav" "o.wav").2.2.2 streamA.1 streamB.1 rfl rfl rfl (Or.inl (by decide))⟩

/-! ## The descriptor of the output -/

/-- C2, counterexample: input 1 declares `2^61` frames of two channels, a product of
`2^62` (no overflow); both inputs and the output open successfully, and
`combineSoundFiles` does not succeed: `resize` rejects the size. -/
theorem opens_succeed_but_combine_does_not :
    (world (some (wav 2305843009213693952 2, [])) (some streamB) true).sf_open_read
        .inputSndFile1 "a.wav" = some (wav 2305843009213693952 2) ∧
    (world (some (wav 2305843009213693952 2, [])) (some streamB) true).sf_open_read
        .inputSndFile2 "b.wav" = some streamB.1 ∧
    (world (some (wav 2305843009213693952 2, [])) (some streamB) true).sf_open_write "o.wav"
        (outputInfoFor (world (some (wav 2305843009213693952 2, [])) (some streamB) true)
          (wav 2305843009213693952 2)) = true ∧
    product (wav 2305843009213693952 2) = 4611686018427387904 ∧
    Representable (wav 2305843009213693952 2) ∧
    (combineSoundFiles (world (some (wav 2305843009213693952 2, [])) (some streamB) true)
        "a.wav" "b.wav" "o.wav").outcome = .length_error ∧
    (combineSoundFiles (world (some (wav 2305843009213693952 2, [])) (some streamB) true)
        "a.wav" "b.wav" "o.wav").outcome ≠ .returned true := by
  decide

/-- C2, amended: whenever both inputs open, the output is opened exactly once, with a
descriptor whose sample rate, channel count and format tag equal those of
input 1; a second run in which input 1 has the same descriptor opens the
output with the same three values whatever the descriptor of input 2 is.  If
the output opens as well, `combineSoundFiles` returns success when both
buffers can be sized (each product `frames * channels` between 0 and
`max_size` and granted by the allocator), and it does not return when a
`resize` throws (a product, within the `int64` range, negative or above
`max_size`, or storage refused). -/
theorem output_descriptor_copies_input1 (E E2 : Env) (p1 p2 po q1 q2 qo : String)
    (i1 i2 j2 : SF_INFO)
    (h1 : E.sf_open_read .inputSndFile1 p1 = some i1)
    (h2 : E.sf_open_read .inputSndFile2 p2 = some i2)
    (k1 : E2.sf_open_read .inputSndFile1 q1 = some i1)
    (k2 : E2.sf_open_read .inputSndFile2 q2 = some j2) :
    ∃ d e,
      outputDescriptors (combineSoundFiles E p1 p2 po).trace = [d] ∧
      outputDescriptors (combineSoundFiles E2 q1 q2 qo).trace = [e] ∧
      d.samplerate = i1.samplerate ∧ d.channels = i1.channels ∧ d.format = i1.format ∧
      e.samplerate = d.samplerate ∧ e.channels = d.channels ∧ e.format = d.format ∧
      (E.sf_open_write po d = true →
        (Fits E .inputSndFile1 i1 → Fits E .inputSndFile2 i2 →
          (combineSoundFiles E p1 p2 po).outcome = .returned true) ∧
        ((TooLong E i1 ∨ Refused E .inputSndFile1 i1 ∨
            (Fits E .inputSndFile1 i1 ∧ (TooLong E i2 ∨ Refused E .inputSndFile2 i2))) →
          ∀ b, (combineSoundFiles E p1 p2 po).outcome ≠ .returned b)) := by
  have key : ∀ (F : Env) (r1 r2 ro : String) (a b : SF_INFO),
      F.sf_open_read .inputSndFile1 r1 = some a →
      F.sf_open_read .inputSndFile2 r2 = some b →
      outputDescriptors (combineSoundFiles F r1 r2 ro).trace = [outputInfoFor F a] := by
    intro F r1 r2 ro a b g1 g2
    cases go : F.sf_open_write ro (outputInfoFor F a) with
    | false =>
      rw [run_open3_fail F r1 r2 ro a b g1 g2 go]
      simp [outputDescriptors]
    | true =>
      cases hr1 : resize F .inputSndFile1 (bufferSize a) with
      | some ex =>
        rw [run_resize1_throws F r1 r2 ro a b ex g1 g2 go hr1]
        simp [outputDescriptors, opensOk]
      | none =>
        cases hr2 : resize F .inputSndFile2 (bufferSize b) with
        | some ex =>
          rw [run_resize2_throws F r1 r2 ro a b ex g1 g2 go hr1 hr2]
          simp [outputDescriptors, opensOk]
        | none =>
          rw [run_success F r1 r2 ro a b g1 g2 go hr1 hr2]
          simp [outputDescriptors, opensOk, transferEvents]
  refine ⟨outputInfoFor E i1, outputInfoFor E2 i1, key E p1 p2 po i1 i2 h1 h2,
    key E2 q1 q2 qo i1 j2 k1 k2, rfl, rfl, rfl, rfl, rfl, rfl, ?_⟩
  intro ho
  refine ⟨?_, ?_⟩
  · intro f1 f2
    rw [run_success E p1 p2 po i1 i2 h1 h2 ho (resize_of_fits E _ i1 f1).2.2
      (resize_of_fits E _ i2 f2).2.2]
  · intro hc b
    rcases hc with t1 | t1 | ⟨f1, t2 | t2⟩
    · rw [run_resize1_throws E p1 p2 po i1 i2 _ h1 h2 ho (resize_of_tooLong E _ i1 t1)]
      simp [Exception.outcome]
    · rw [run_resize1_throws E p1 p2 po i1 i2 _ h1 h2 ho (resize_of_refused E _ i1 t1)]
      simp [Exception.outcome]
    · rw [run_resize2_throws E p1 p2 po i1 i2 _ h1 h2 ho (resize_of_fits E _ i1 f1).2.2
        (resize_of_tooLong E _ i2 t2)]
      simp [Exception.outcome]
    · rw [run_resize2_throws E p1 p2 po i1 i2 _ h1 h2 ho (resize_of_fits E _ i1 f1).2.2
        (resize_of_refused E _ i2 t2)]
      simp [Exception.outcome]

theorem output_descriptor_copies_input1_witness :
    ∃ d e,
      outputDescriptors (combineSoundFiles (world (some streamA) (some streamB) true)
          "a.wav" "b.wav" "o.wav").trace = [d] ∧
      outputDescriptors (combineSoundFiles (world (some streamA) (some streamA) true)
          "a.wav" "c.wav" "o.wav").trace = [e] ∧
      d.samplerate = streamA.1.samplerate ∧ d.channels = streamA.1.channels ∧
      d.format = streamA.1.format ∧
      e.samplerate = d.samplerate ∧ e.channels = d.channels ∧ e.format = d.format ∧
      ((world (some streamA) (some streamB) true).sf_open_write "o.wav" d = true →
        (Fits (world (some streamA) (some streamB) true) .inputSndFile1 streamA.1 →
          Fits (world (some streamA) (some streamB) true) .inputSndFile2 streamB.1 →
          (combineSoundFiles (world (some streamA) (some streamB) true)
            "a.wav" "b.wav" "o.wav").outcome = .returned true) ∧
        ((TooLong (world (some streamA) (some streamB) true) streamA.1 ∨
            Refused (world (some streamA) (some streamB) true) .inputSndFile1 streamA.1 ∨
            (Fits (world (some streamA) (some streamB) true) .inputSndFile1 streamA.1 ∧
              (TooLong (world (some streamA) (some streamB) true) streamB.1 ∨
                Refused (world (some streamA) (some streamB) true)
                  .inputSndFile2 streamB.1))) →
          ∀ b, (combineSoundFiles (world (some streamA) (some streamB) true)
            "a.wav" "b.wav" "o.wav").outcome ≠ .returned b)) :=
  output_descriptor_copies_input1 (world (some streamA) (some streamB) true)
    (world (some streamA) (some streamA) true) "a.wav" "b.wav" "o.wav" "a.wav" "c.wav" "o.wav"
    streamA.1 streamB.1 streamA.1 rfl rfl rfl rfl

/-! ## What is written -/

/-- In a run that performs bulk reads, the reads are those of the successful
path and each block read is passed, as it is, to a write on the output. -/
theorem reads_determine_writes (E : Env) (p1 p2 po : String)
    (hne : reads (combineSoundFiles E p1 p2 po).trace ≠ []) :
    ∃ i1 i2,
      E.sf_open_read .inputSndFile1 p1 = some i1 ∧
      E.sf_open_read .inputSndFile2 p2 = some i2 ∧
      (combineSoundFiles E p1 p2 po).outcome = .returned true ∧
      (bufferSize i1 ≤ E.max_size ∧ bufferSize i2 ≤ E.max_size) ∧
      resizes (combineSoundFiles E p1 p2 po).trace
        = [(.inputSndFile1, bufferSize i1), (.inputSndFile2, bufferSize i2)] ∧
      reads (combineSoundFiles E p1 p2 po).trace
        = [(.inputSndFile1, to_sf_count_t (bufferSize i1), delivered E .inputSndFile1 i1),
           (.inputSndFile2, to_sf_count_t (bufferSize i2), delivered E .inputSndFile2 i2)] ∧
      writes (combineSoundFiles E p1 p2 po).trace
        = [(.outputSndFile, delivered E .inputSndFile1 i1),
           (.outputSndFile, delivered E .inputSndFile2 i2)] := by
  revert hne
  cases h1 : E.sf_open_read .inputSndFile1 p1 with
  | none =>
    rw [run_open1_fail E p1 p2 po h1]
    simp [reads]
  | some i1 =>
    cases h2 : E.sf_open_read .inputSndFile2 p2 with
    | none =>
      rw [run_open2_fail E p1 p2 po i1 h1 h2]
      simp [reads]
    | some i2 =>
      cases ho : E.sf_open_write po (outputInfoFor E i1) with
      | false =>
        rw [run_open3_fail E p1 p2 po i1 i2 h1 h2 ho]
        simp [reads]
      | true =>
        cases hr1 : resize E .inputSndFile1 (bufferSize i1) with
        | some ex =>
          rw [run_resize1_throws E p1 p2 po i1 i2 ex h1 h2 ho hr1]
          simp [reads, opensOk]
        | none =>
          cases hr2 : resize E .inputSndFile2 (bufferSize i2) with
          | some ex =>
            rw [run_resize2_throws E p1 p2 po i1 i2 ex h1 h2 ho hr1 hr2]
            simp [reads, opensOk]
          | none =>
            rw [run_success E p1 p2 po i1 i2 h1 h2 ho hr1 hr2]
            simp [reads, writes, resizes, opensOk, transferEvents,
              le_max_size_of_resize E _ _ hr1, le_max_size_of_resize E _ _ hr2]

/-- The samples written to the output when the trace holds exactly two writes,
both on the output. -/
theorem written_of_two_output_writes (t : List Event) (a b : List Int)
    (hw : writes t = [(.outputSndFile, a), (.outputSndFile, b)]) : written t = a ++ b := by
  simp [written, writtenTo, hw]

/-- C1: when both inputs and the output open and both bulk reads are full (the read
of input k delivers `frames_k * channels_k` samples), `combineSoundFiles`
returns success, its writes are exactly two writes on the output stream, of
the samples of input 1 and then of the samples of input 2, so the sequence
written to the output is the one followed by the other, nothing dropped,
added or reordered, whatever the two descriptors are; if the two sample
sequences are equal, the output holds twice as many samples, in two identical
consecutive halves. -/
theorem full_reads_are_concatenated (E : Env) (p1 p2 po : String) (i1 i2 : SF_INFO)
    (r1 r2 : Int) (a b : List Int)
    (h1 : E.sf_open_read .inputSndFile1 p1 = some i1)
    (h2 : E.sf_open_read .inputSndFile2 p2 = some i2)
    (ho : E.sf_open_write po (outputInfoFor E i1) = true)
    (hreads : reads (combineSoundFiles E p1 p2 po).trace
      = [(.inputSndFile1, r1, a), (.inputSndFile2, r2, b)])
    (hA : (a.length : Int) = i1.frames * i1.channels)
    (hB : (b.length : Int) = i2.frames * i2.channels) :
    (combineSoundFiles E p1 p2 po).outcome = .returned true ∧
    writes (combineSoundFiles E p1 p2 po).trace
      = [(.outputSndFile, a), (.outputSndFile, b)] ∧
    written (combineSoundFiles E p1 p2 po).trace = a ++ b ∧
    ((written (combineSoundFiles E p1 p2 po).trace).length : Int)
      = i1.frames * i1.channels + i2.frames * i2.channels ∧
    (b = a →
      (written (combineSoundFiles E p1 p2 po).trace).length = 2 * a.length ∧
      (written (combineSoundFiles E p1 p2 po).trace).take a.length = a ∧
      (written (combineSoundFiles E p1 p2 po).trace).drop a.length = a) := by
  have hne : reads (combineSoundFiles E p1 p2 po).trace ≠ [] := by simp [hreads]
  obtain ⟨j1, j2, g1, g2, hout, -, -, hr, hw⟩ := reads_determine_writes E p1 p2 po hne
  obtain rfl : j1 = i1 := Option.some.inj (g1.symm.trans h1)
  obtain rfl : j2 = i2 := Option.some.inj (g2.symm.trans h2)
  clear ho
  rw [hreads] at hr
  simp only [List.cons.injEq, Prod.mk.injEq, true_and, and_true] at hr
  obtain ⟨⟨-, ea⟩, ⟨-, eb⟩⟩ := hr
  have hw2 : writes (combineSoundFiles E p1 p2 po).trace
      = [(.outputSndFile, a), (.outputSndFile, b)] := by
    rw [hw, ← ea, ← eb]
  have hwr := written_of_two_output_writes _ a b hw2
  refine ⟨hout, hw2, hwr, ?_, ?_⟩
  · rw [hwr, List.length_append, ← hA, ← hB]
    push_cast
    rfl
  · intro hba
    subst hba
    rw [hwr]
    refine ⟨?_, ?_, ?_⟩
    · simp [two_mul]
    · simp
    · simp

theorem full_reads_are_concatenated_witness :
    (combineSoundFiles (world (some streamA) (some streamA) true)
        "a.wav" "a.wav" "o.wav").outcome = .returned true ∧
    writes (combineSoundFiles (world (some streamA) (some streamA) true)
        "a.wav" "a.wav" "o.wav").trace
      = [(.outputSndFile, streamA.2), (.outputSndFile, streamA.2)] ∧
    written (combineSoundFiles (world (some streamA) (some streamA) true)
        "a.wav" "a.wav" "o.wav").trace = streamA.2 ++ streamA.2 ∧
    ((written (combineSoundFiles (world (some streamA) (some streamA) true)
        "a.wav" "a.wav" "o.wav").trace).length : Int)
      = streamA.1.frames * streamA.1.channels + streamA.1.frames * streamA.1.channels ∧
    (streamA.2 = streamA.2 →
      (written (combineSoundFiles (world (some streamA) (some streamA) true)
        "a.wav" "a.wav" "o.wav").trace).length = 2 * streamA.2.length ∧
      (written (combineSoundFiles (world (some streamA) (some streamA) true)
        "a.wav" "a.wav" "o.wav").trace).take streamA.2.length = streamA.2 ∧
      (written (combineSoundFiles (world (some streamA) (some streamA) true)
        "a.wav" "a.wav" "o.wav").trace).drop streamA.2.length = streamA.2) :=
  full_reads_are_concatenated (world (some streamA) (some streamA) true)
    "a.wav" "a.wav" "o.wav" streamA.1 streamA.1 6 6 streamA.2 streamA.2
    rfl rfl rfl (by decide) (by decide) (by decide)

/-- C8: if the bulk read of an input delivers fewer samples than its buffer holds
(none at all included), the block passed to the write on the output for that
input is exactly the samples delivered, in order, of the same count, hence
shorter than the buffer: no padding and no buffer content beyond them is
written; the run's writes are these two writes on the output, so the samples
of input 2 follow those of input 1 immediately.  The count requested from
each read is the length of its buffer. -/
theorem short_reads_are_written_as_read (E : Env) (p1 p2 po : String)
    (n1 n2 : Nat) (r1 r2 : Int) (a b : List Int)
    (hsize : resizes (combineSoundFiles E p1 p2 po).trace
      = [(.inputSndFile1, n1), (.inputSndFile2, n2)])
    (hreads : reads (combineSoundFiles E p1 p2 po).trace
      = [(.inputSndFile1, r1, a), (.inputSndFile2, r2, b)])
    (hshort : a.length < n1 ∨ b.length < n2) :
    writes (combineSoundFiles E p1 p2 po).trace
      = [(.outputSndFile, a), (.outputSndFile, b)] ∧
    (writes (combineSoundFiles E p1 p2 po).trace).map (fun w => w.2.length)
      = [a.length, b.length] ∧
    (writes (combineSoundFiles E p1 p2 po).trace).map (fun w => w.2.length) ≠ [n1, n2] ∧
    written (combineSoundFiles E p1 p2 po).trace = a ++ b ∧
    r1 = (n1 : Int) ∧ r2 = (n2 : Int) := by
  have hne : reads (combineSoundFiles E p1 p2 po).trace ≠ [] := by simp [hreads]
  obtain ⟨j1, j2, -, -, -, ⟨hn1, hn2⟩, hs, hr, hw⟩ := reads_determine_writes E p1 p2 po hne
  have hmax := E.max_size_lt
  rw [hreads] at hr
  rw [hsize] at hs
  simp only [List.cons.injEq, Prod.mk.injEq, true_and, and_true] at hr hs
  obtain ⟨⟨er1, ea⟩, ⟨er2, eb⟩⟩ := hr
  obtain ⟨es1, es2⟩ := hs
  rw [to_sf_count_t_of_lt _ (Nat.lt_of_le_of_lt hn1 hmax)] at er1
  rw [to_sf_count_t_of_lt _ (Nat.lt_of_le_of_lt hn2 hmax)] at er2
  have hw2 : writes (combineSoundFiles E p1 p2 po).trace
      = [(.outputSndFile, a), (.outputSndFile, b)] := by
    rw [hw, ← ea, ← eb]
  refine ⟨hw2, by simp [hw2], ?_, written_of_two_output_writes _ a b hw2,
    by rw [er1, es1], by rw [er2, es2]⟩
  rw [hw2]
  simp only [List.map_cons, List.map_nil, ne_eq, List.cons.injEq, and_true, not_and]
  omega

theorem short_reads_are_written_as_read_witness :
    writes (combineSoundFiles (world (some (wav 3 2, [1, 2, 3, 4])) (some (wav 2 1, [])) true)
        "a.wav" "b.wav" "o.wav").trace
      = [(.outputSndFile, [1, 2, 3, 4]), (.outputSndFile, [])] ∧
    (writes (combineSoundFiles (world (some (wav 3 2, [1, 2, 3, 4])) (some (wav 2 1, [])) true)
        "a.wav" "b.wav" "o.wav").trace).map (fun w => w.2.length)
      = [([1, 2, 3, 4] : List Int).length, ([] : List Int).length] ∧
    (writes (combineSoundFiles (world (some (wav 3 2, [1, 2, 3, 4])) (some (wav 2 1, [])) true)
        "a.wav" "b.wav" "o.wav").trace).map (fun w => w.2.length) ≠ [6, 2] ∧
    written (combineSoundFiles (world (some (wav 3 2, [1, 2, 3, 4])) (some (wav 2 1, [])) true)
        "a.wav" "b.wav" "o.wav").trace = [1, 2, 3, 4] ++ [] ∧
    (6 : Int) = ((6 : Nat) : Int) ∧ (2 : Int) = ((2 : Nat) : Int) :=
  short_reads_are_written_as_read
    (world (some (wav 3 2, [1, 2, 3, 4])) (some (wav 2 1, [])) true)
    "a.wav" "b.wav" "o.wav" 6 2 6 2 [1, 2, 3, 4] [] (by decide) (by decide) (by decide)

/-! ## Buffer sizes -/

/-- C10, counterexample: input 1 is `streamA` (product 6) and input 2 declares
`2^63 - 1` frames of one channel (a product within the `int64` range).  All
opens succeed; the buffer of input 1 is allocated, no buffer is allocated for
input 2, and no sample count is requested from either bulk read, because the
second `resize` throws. -/
theorem no_buffer_of_the_declared_length :
    product streamA.1 = 6 ∧
    product (wav 9223372036854775807 1) = 9223372036854775807 ∧
    Representable (wav 9223372036854775807 1) ∧
    opened (combineSoundFiles
        (world (some streamA) (some (wav 9223372036854775807 1, [])) true)
        "a.wav" "b.wav" "o.wav").trace
      = [(.inputSndFile1, true), (.inputSndFile2, true), (.outputSndFile, true)] ∧
    resizes (combineSoundFiles
        (world (some streamA) (some (wav 9223372036854775807 1, [])) true)
        "a.wav" "b.wav" "o.wav").trace = [(.inputSndFile1, 6)] ∧
    reads (combineSoundFiles
        (world (some streamA) (some (wav 9223372036854775807 1, [])) true)
        "a.wav" "b.wav" "o.wav").trace = [] ∧
    (combineSoundFiles
        (world (some streamA) (some (wav 9223372036854775807 1, [])) true)
        "a.wav" "b.wav" "o.wav").outcome = .length_error := by
  decide

/-- C10, amended: when all three opens succeed and both buffers can be sized (each
product `frames_k * channels_k` is between 0 and `max_size` and granted by the
allocator), the buffer of input k has length exactly `frames_k * channels_k`
and that number is the count requested from the bulk read of input k.  When
a product, within the `int64` range, is negative or above `max_size`, `resize`
throws `std::length_error`; when the allocator refuses the storage, it throws
`std::bad_alloc`; in both cases no bulk read is issued, and the buffer of
input 1 exists only if the throw came from the second `resize`. -/
theorem buffer_sized_by_product_when_it_fits (E : Env) (p1 p2 po : String)
    (i1 i2 : SF_INFO)
    (h1 : E.sf_open_read .inputSndFile1 p1 = some i1)
    (h2 : E.sf_open_read .inputSndFile2 p2 = some i2)
    (ho : E.sf_open_write po (outputInfoFor E i1) = true) :
    (Fits E .inputSndFile1 i1 → Fits E .inputSndFile2 i2 →
      resizes (combineSoundFiles E p1 p2 po).trace
        = [(.inputSndFile1, (i1.frames * i1.channels).toNat),
           (.inputSndFile2, (i2.frames * i2.channels).toNat)] ∧
      (reads (combineSoundFiles E p1 p2 po).trace).map (fun x => (x.1, x.2.1))
        = [(.inputSndFile1, i1.frames * i1.channels),
           (.inputSndFile2, i2.frames * i2.channels)]) ∧
    (TooLong E i1 →
      resizes (combineSoundFiles E p1 p2 po).trace = [] ∧
      reads (combineSoundFiles E p1 p2 po).trace = [] ∧
      (combineSoundFiles E p1 p2 po).outcome = .length_error) ∧
    (Refused E .inputSndFile1 i1 →
      resizes (combineSoundFiles E p1 p2 po).trace = [] ∧
      reads (combineSoundFiles E p1 p2 po).trace = [] ∧
      (combineSoundFiles E p1 p2 po).outcome = .bad_alloc) ∧
    (Fits E .inputSndFile1 i1 → TooLong E i2 →
      resizes (combineSoundFiles E p1 p2 po).trace
        = [(.inputSndFile1, (i1.frames * i1.channels).toNat)] ∧
      reads (combineSoundFiles E p1 p2 po).trace = [] ∧
      (combineSoundFiles E p1 p2 po).outcome = .length_error) ∧
    (Fits E .inputSndFile1 i1 → Refused E .inputSndFile2 i2 →
      resizes (combineSoundFiles E p1 p2 po).trace
        = [(.inputSndFile1, (i1.frames * i1.channels).toNat)] ∧
      reads (combineSoundFiles E p1 p2 po).trace = [] ∧
      (combineSoundFiles E p1 p2 po).outcome = .bad_alloc) := by
  have hmax := E.max_size_lt
  refine ⟨?_, ?_, ?_, ?_, ?_⟩
  · intro f1 f2
    obtain ⟨e1, c1, r1⟩ := resize_of_fits E _ i1 f1
    obtain ⟨e2, c2, r2⟩ := resize_of_fits E _ i2 f2
    have l1 := le_max_size_of_resize E _ _ r1
    have l2 := le_max_size_of_resize E _ _ r2
    unfold product at e1 e2 c1 c2
    rw [run_success E p1 p2 po i1 i2 h1 h2 ho r1 r2]
    simp [resizes, reads, opensOk, transferEvents,
      to_sf_count_t_of_lt _ (Nat.lt_of_le_of_lt l1 hmax),
      to_sf_count_t_of_lt _ (Nat.lt_of_le_of_lt l2 hmax), c1, c2, ← e1, ← e2]
  · intro t1
    rw [run_resize1_throws E p1 p2 po i1 i2 _ h1 h2 ho (resize_of_tooLong E _ i1 t1)]
    simp [resizes, reads, opensOk, Exception.outcome]
  · intro t1
    rw [run_resize1_throws E p1 p2 po i1 i2 _ h1 h2 ho (resize_of_refused E _ i1 t1)]
    simp [resizes, reads, opensOk, Exception.outcome]
  · intro f1 t2
    obtain ⟨e1, -, r1⟩ := resize_of_fits E _ i1 f1
    unfold product at e1
    rw [run_resize2_throws E p1 p2 po i1 i2 _ h1 h2 ho r1 (resize_of_tooLong E _ i2 t2)]
    simp [resizes, reads, opensOk, Exception.outcome, ← e1]
  · intro f1 t2
    obtain ⟨e1, -, r1⟩ := resize_of_fits E _ i1 f1
    unfold product at e1
    rw [run_resize2_throws E p1 p2 po i1 i2 _ h1 h2 ho r1 (resize_of_refused E _ i2 t2)]
    simp [resizes, reads, opensOk, Exception.outcome, ← e1]

theorem buffer_sized_by_product_when_it_fits_witness :
    resizes (combineSoundFiles (world (some streamA) (some streamB) true)
        "a.wav" "b.wav" "o.wav").trace
      = [(.inputSndFile1, (streamA.1.frames * streamA.1.channels).toNat),
         (.inputSndFile2, (streamB.1.frames * streamB.1.channels).toNat)] ∧
    (reads (combineSoundFiles (world (some streamA) (some streamB) true)
        "a.wav" "b.wav" "o.wav").trace).map (fun x => (x.1, x.2.1))
      = [(.inputSndFile1, streamA.1.frames * streamA.1.channels),
         (.inputSndFile2, streamB.1.frames * streamB.1.channels)] :=
  (buffer_sized_by_product_when_it_fits (world (some streamA) (some streamB) true)
    "a.wav" "b.wav" "o.wav" streamA.1 streamB.1 rfl rfl rfl).1
    (by decide) (by decide)

/-! ## The command line -/

/-- C6: `main` is determined by its argument count.  With three user arguments
`a b c` it runs `combineSoundFiles a b c` once, with two user arguments `b c`
it runs `combineSoundFiles "asset/ambient.wav" b c` once, and in both cases the
exit code is 0 when that call returned success and 1 when it returned
failure.  With any other number of user arguments it prints the three lines
of the usage text, naming the program, on standard error and does nothing
else: no file is opened and the exit code is 1.  (Started without even a
program name, it prints the usage up to the place of the name, opens no file
and exits with code 1.) -/
theorem main_dispatches_on_argument_count (E : Env) :
    (∀ prog a b c : String,
      main E [prog, a, b, c] = exitWith (combineSoundFiles E a b c)) ∧
    (∀ prog b c : String,
      main E [prog, b, c] = exitWith (combineSoundFiles E "asset/ambient.wav" b c)) ∧
    (∀ r : Run, (exitWith r).trace = r.trace ∧
      (r.outcome = .returned true → (exitWith r).exit = some 0) ∧
      (r.outcome = .returned false → (exitWith r).exit = some 1)) ∧
    (∀ (prog : String) (args : List String), args.length ≠ 3 → args.length ≠ 2 →
      main E (prog :: args) =
        { trace :=
            [ .cerr "DJ Sacabambaspis cannot make music because there are an incorrect number of files.\n",
              .cerr ("Provide either 2 or 3 arguments in the following format: " ++ prog
                ++ " <input_file1.wav> <input_file2.wav> <output_file.wav>\n"),
              .cerr ("       " ++ prog ++ " <input_file2.wav> <output_file.wav>\n") ],
          exit := some 1 }) ∧
    (main E [] =
        { trace :=
            [ .cerr "DJ Sacabambaspis cannot make music because there are an incorrect number of files.\n",
              .cerr "Provide either 2 or 3 arguments in the following format: " ],
          exit := some 1 }) ∧
    (∀ argv : List String, argv.length ≠ 4 → argv.length ≠ 3 →
      (main E argv).exit = some 1 ∧
      opened (main E argv).trace = [] ∧
      closed (main E argv).trace = [] ∧
      reads (main E argv).trace = [] ∧
      writes (main E argv).trace = [] ∧
      stdout (main E argv).trace = []) := by
  refine ⟨fun _ _ _ _ => rfl, fun _ _ _ => rfl, ?_, ?_, rfl, ?_⟩
  · intro r
    refine ⟨?_, ?_, ?_⟩
    · unfold exitWith
      split <;> rfl
    · intro h
      unfold exitWith
      rw [h]
    · intro h
      unfold exitWith
      rw [h]
  · intro prog args h3 h2
    unfold main
    simp [h3, h2, String.append_assoc]
  · intro argv h4 h3
    unfold main
    cases argv with
    | nil => simp [opened, closed, reads, writes, stdout]
    | cons prog args =>
      simp only [List.length_cons] at h4 h3
      have a3 : args.length ≠ 3 := by omega
      have a2 : args.length ≠ 2 := by omega
      simp [a3, a2, opened, closed, reads, writes, stdout]

theorem main_dispatches_on_argument_count_witness :
    main (world (some streamA) (some streamB) true) ("lohigh" :: ["only.wav"]) =
      { trace :=
          [ .cerr "DJ Sacabambaspis cannot make music because there are an incorrect number of files.\n",
            .cerr ("Provide either 2 or 3 arguments in the following format: " ++ "lohigh"
              ++ " <input_file1.wav> <input_file2.wav> <output_file.wav>\n"),
            .cerr ("       " ++ "lohigh" ++ " <input_file2.wav> <output_file.wav>\n") ],
        exit := some 1 } :=
  (main_dispatches_on_argument_count (world (some streamA) (some streamB) true)).2.2.2.1
    "lohigh" ["only.wav"] (by decide) (by decide)

end Lohigh
